import Mathlib

/-!
Verification of the mycro-zine imposition engine.

The development shallowly embeds the layout code of the repository:
* `Layout` models `src/layout.mjs` (reading-order 2×4 grid, portrait letter);
* `ZineLib` models the web library's `createPrintLayoutDirect`
  (fold-cut 4×2 grid, landscape letter);
* `Index` models the package index module (`DIMENSIONS`, `validateConfig`,
  `createZineConfig`).
Machine integers in the source are JavaScript numbers used only on small
non-negative integer values, so they are modelled as `Nat` (with `Nat`
division standing for `Math.floor` of a non-negative quotient); image
scale factors are modelled as `ℚ`.
-/

namespace MycroZine

/-- A placement record of the fold-cut arrangement: logical page number,
grid column, grid row and rotation in degrees, exactly the fields of the
object literals in `pageArrangement`. -/
structure PlacementRecord where
  page : Nat
  col : Nat
  row : Nat
  rotate : Nat
deriving DecidableEq, Repr

/-- One entry of a sharp composite array: which source page (0-based) is
painted, and the pixel offset of its top-left corner. -/
structure CompositeEntry where
  pageIndex : Nat
  left : Nat
  top : Nat
deriving DecidableEq, Repr

namespace ZineLib

/-- `PRINT_WIDTH` of `createPrintLayoutDirect`: 3300 px (11" at 300 DPI). -/
def PRINT_WIDTH : Nat := 3300

/-- `PRINT_HEIGHT` of `createPrintLayoutDirect`: 2550 px (8.5" at 300 DPI). -/
def PRINT_HEIGHT : Nat := 2550

/-- `PANEL_WIDTH` of `createPrintLayoutDirect`: 825 px. -/
def PANEL_WIDTH : Nat := 825

/-- `PANEL_HEIGHT` of `createPrintLayoutDirect`: 1275 px. -/
def PANEL_HEIGHT : Nat := 1275

/-- The `pageArrangement` literal of `createPrintLayoutDirect`:
top row pages 1, 8, 7, 6 rotated 180°, bottom row pages 2, 3, 4, 5
unrotated. -/
def pageArrangement : List PlacementRecord :=
  [ ⟨1, 0, 0, 180⟩, ⟨8, 1, 0, 180⟩, ⟨7, 2, 0, 180⟩, ⟨6, 3, 0, 180⟩,
    ⟨2, 0, 1, 0⟩, ⟨3, 1, 1, 0⟩, ⟨4, 2, 1, 0⟩, ⟨5, 3, 1, 0⟩ ]

/-- Look up the placement record of a given logical page number. -/
def recordFor (p : Nat) : Option PlacementRecord :=
  pageArrangement.find? (fun r => r.page == p)

/-- The full 4×2 grid of (column, row) cells, columns 0–3, rows 0–1. -/
def grid4x2 : List (Nat × Nat) :=
  (List.range 4).flatMap (fun c => (List.range 2).map (fun r => (c, r)))

end ZineLib

namespace Layout

/-- `PAGE_WIDTH` of `layout.mjs`: 2550 px (8.5" at 300 DPI). -/
def PAGE_WIDTH : Nat := 2550

/-- `PAGE_HEIGHT` of `layout.mjs`: 3300 px (11" at 300 DPI). -/
def PAGE_HEIGHT : Nat := 3300

/-- `COLS` of `layout.mjs`. -/
def COLS : Nat := 2

/-- `ROWS` of `layout.mjs`. -/
def ROWS : Nat := 4

/-- `PANEL_WIDTH = Math.floor(PAGE_WIDTH / COLS)` of `layout.mjs`. -/
def PANEL_WIDTH : Nat := PAGE_WIDTH / COLS

/-- `PANEL_HEIGHT = Math.floor(PAGE_HEIGHT / ROWS)` of `layout.mjs`. -/
def PANEL_HEIGHT : Nat := PAGE_HEIGHT / ROWS

/-- The composite array built by the nested row/column loops of
`createPrintLayout`: entry for grid cell (row, col) paints source page
index `row * COLS + col` at pixel offset
`(col * PANEL_WIDTH, row * PANEL_HEIGHT)`. -/
def compositeImages : List CompositeEntry :=
  (List.range ROWS).flatMap (fun row =>
    (List.range COLS).map (fun col =>
      ⟨row * COLS + col, col * PANEL_WIDTH, row * PANEL_HEIGHT⟩))

/-- Look up the composite entry that paints 0-based source page `i`. -/
def entryFor (i : Nat) : Option CompositeEntry :=
  compositeImages.find? (fun e => e.pageIndex == i)

end Layout

/-- The result geometry of one resize call: the output raster size, the
size of the scaled source content, and the (centred) offset of the
content inside the output. -/
@[ext]
structure FitResult where
  outW : ℚ
  outH : ℚ
  contentW : ℚ
  contentH : ℚ
  offX : ℚ
  offY : ℚ
deriving DecidableEq, Repr

/-- The scale factor of a contain fit: the larger of the two per-axis
ratios would overflow one axis, so the smaller is taken. -/
def containScale (srcW srcH panelW panelH : ℚ) : ℚ :=
  min (panelW / srcW) (panelH / srcH)

/-- The scale factor of a cover fit: the smaller of the two per-axis
ratios would leave one axis uncovered, so the larger is taken. -/
def coverScale (srcW srcH panelW panelH : ℚ) : ℚ :=
  max (panelW / srcW) (panelH / srcH)

/-- Modelled from the spec: the source delegates resizing to the sharp
library; `resize(w, h, fit contain)` scales the source by the largest
aspect-preserving factor that fits inside w×h and centres it on a
background-filled w×h canvas (§4.2's contain fit). -/
def containFit (srcW srcH panelW panelH : ℚ) : FitResult :=
  { outW := panelW, outH := panelH,
    contentW := containScale srcW srcH panelW panelH * srcW,
    contentH := containScale srcW srcH panelW panelH * srcH,
    offX := (panelW - containScale srcW srcH panelW panelH * srcW) / 2,
    offY := (panelH - containScale srcW srcH panelW panelH * srcH) / 2 }

/-- Modelled from the spec: sharp's `resize(w, h, fit cover, position
center)` — the dual of the contain fit — scales the source by the
smallest aspect-preserving factor that covers w×h and centre-crops the
result to w×h, so content outside the panel is discarded. -/
def coverFit (srcW srcH panelW panelH : ℚ) : FitResult :=
  { outW := panelW, outH := panelH,
    contentW := coverScale srcW srcH panelW panelH * srcW,
    contentH := coverScale srcW srcH panelW panelH * srcH,
    offX := (panelW - coverScale srcW srcH panelW panelH * srcW) / 2,
    offY := (panelH - coverScale srcW srcH panelW panelH * srcH) / 2 }

/-- The two paper formats named in the index module's `DIMENSIONS` table. -/
inductive PaperFormat where
  | letter
  | a4
deriving DecidableEq, Repr

/-- The two layout schemes present in the source: the reading-order 2×4
grid of `layout.mjs` and the fold-cut 4×2 arrangement of
`createPrintLayoutDirect`. -/
inductive Scheme where
  | readingGrid
  | foldCut
deriving DecidableEq, Repr

/-- Canvas and panel geometry: canvas pixel dimensions, the grid shape,
and the per-panel pixel dimensions. -/
structure Geometry where
  canvasWidthPx : Nat
  canvasHeightPx : Nat
  columns : Nat
  rows : Nat
  panelWidthPx : Nat
  panelHeightPx : Nat
deriving DecidableEq, Repr

namespace Index

/-- The `DIMENSIONS` table of the index module: per paper format, the
portrait canvas size at 300 DPI and the 2×4 panel grid, with the
panel sizes it lists literally. -/
def DIMENSIONS : PaperFormat → Geometry
  | .letter => ⟨2550, 3300, 2, 4, 1275, 825⟩
  | .a4 => ⟨2480, 3508, 2, 4, 1240, 877⟩

end Index

/-- The fold-cut geometry hardcoded in `createPrintLayoutDirect`:
3300×2550 landscape letter canvas, 825×1275 panels, and the 4×2 grid
implicit in `pageArrangement` (columns 0–3, rows 0–1). -/
def foldCutLetterGeometry : Geometry :=
  ⟨ZineLib.PRINT_WIDTH, ZineLib.PRINT_HEIGHT, 4, 2,
    ZineLib.PANEL_WIDTH, ZineLib.PANEL_HEIGHT⟩

/-- Modelled from the spec: the source has no a4 fold-cut geometry (the
fold-cut path hardcodes landscape letter), so per §4.1 the a4 canvas of
the `DIMENSIONS` table is swapped to landscape for the fold-cut scheme
and panel sizes are the floor divisions by the 4×2 grid. -/
def foldCutA4Geometry : Geometry :=
  ⟨3508, 2480, 4, 2, 3508 / 4, 2480 / 2⟩

/-- The geometry each (paper format, scheme) pair resolves to: the
`DIMENSIONS` table for the reading-order grid, the hardcoded landscape
letter constants for fold-cut letter, and the spec-modelled
`foldCutA4Geometry` for fold-cut a4. -/
def resolveGeometry : PaperFormat → Scheme → Geometry
  | fmt, .readingGrid => Index.DIMENSIONS fmt
  | .letter, .foldCut => foldCutLetterGeometry
  | .a4, .foldCut => foldCutA4Geometry

namespace Layout

/-- The per-page resize of `createPrintLayout`:
`resize(PANEL_WIDTH, PANEL_HEIGHT, fit contain with background)`. -/
def normalizePage (srcW srcH : ℚ) : FitResult :=
  containFit srcW srcH (PANEL_WIDTH : ℚ) (PANEL_HEIGHT : ℚ)

end Layout

namespace ZineLib

/-- The per-page resize of `createPrintLayoutDirect`:
`resize(PANEL_WIDTH, PANEL_HEIGHT, fit cover, position center)`. -/
def resizePanel (srcW srcH : ℚ) : FitResult :=
  coverFit srcW srcH (PANEL_WIDTH : ℚ) (PANEL_HEIGHT : ℚ)

end ZineLib

/-- Modelled from the spec: §4.2's characterisation of a Page Normalizer
output — exact panel dimensions, content equal to the source scaled by a
maximal non-negative aspect-preserving factor that fits inside the panel,
and centred. `containFit` computes such an output; determinism is the
statement that this relation admits at most one output. -/
def IsContainFitOf (srcW srcH panelW panelH : ℚ) (f : FitResult) : Prop :=
  f.outW = panelW ∧ f.outH = panelH ∧
  ∃ s : ℚ, 0 ≤ s ∧
    f.contentW = s * srcW ∧ f.contentH = s * srcH ∧
    s * srcW ≤ panelW ∧ s * srcH ≤ panelH ∧
    (∀ t : ℚ, 0 ≤ t → t * srcW ≤ panelW → t * srcH ≤ panelH → t ≤ s) ∧
    f.offX = (panelW - f.contentW) / 2 ∧ f.offY = (panelH - f.contentH) / 2

/-- Whether an `Except` result is a success. -/
def isOkE {ε α : Type} : Except ε α → Bool
  | .ok _ => true
  | .error _ => false

/-- A source page image: its pixel dimensions and whether its raster
decodes successfully (an undecodable buffer makes the resize pipeline
reject). -/
structure PageImage where
  width : Nat
  height : Nat
  valid : Bool
deriving DecidableEq, Repr

/-- The observable side effects of a build, listed in program order. -/
inductive Effect where
  | mkdirOutputDir
  | readPage (page : Nat)
  | resizePage (page : Nat)
  | encodeWriteOutput
deriving DecidableEq, Repr

namespace Layout

/-- The sharp `create` descriptor of `createPrintLayout`'s final
composite canvas: width, height, channels and a CSS background color. -/
structure SharpCanvas where
  width : Nat
  height : Nat
  channels : Nat
  background : String
deriving DecidableEq, Repr

/-- The successful result of `createPrintLayout`: the canvas descriptor,
the background color passed to every per-page resize, and the composite
entries. -/
structure LayoutResult where
  canvas : SharpCanvas
  resizeBackground : String
  composites : List CompositeEntry
deriving DecidableEq, Repr

/-- `createPrintLayout` of `layout.mjs` as a trace-producing function:
the page-count guard runs first (a missing or non-8-length `pages`
throws the fixed message with an empty trace), then `fs.mkdir` of the
output directory, then the eight resizes (all started by `Promise.all`),
and the composite-encode-write of the output runs only when every resize
succeeded. -/
def createPrintLayout (pagesOpt : Option (List PageImage)) (background : String) :
    List Effect × Except String LayoutResult :=
  match pagesOpt with
  | none => ([], .error "Exactly 8 page images are required")
  | some pages =>
    if pages.length = 8 then
      let tr := Effect.mkdirOutputDir ::
        (List.range 8).map (fun i => Effect.resizePage (i + 1))
      if pages.all (fun p => p.valid) then
        (tr ++ [Effect.encodeWriteOutput],
          .ok { canvas :=
                  { width := PAGE_WIDTH, height := PAGE_HEIGHT,
                    channels := 3, background := background },
                resizeBackground := background,
                composites := compositeImages })
      else (tr, .error "Input file contains unsupported image format")
    else ([], .error "Exactly 8 page images are required")

end Layout

namespace ZineLib

/-- The RGBA color object given to sharp's `create.background`. -/
structure RGBA where
  r : Nat
  g : Nat
  b : Nat
  alpha : Nat
deriving DecidableEq, Repr

/-- The opaque white hardcoded by `createPrintLayoutDirect`. -/
def whiteColor : RGBA := ⟨255, 255, 255, 1⟩

/-- The sharp `create` descriptor of `createPrintLayoutDirect`'s canvas. -/
structure DirectCanvas where
  width : Nat
  height : Nat
  channels : Nat
  background : RGBA
deriving DecidableEq, Repr

/-- The successful result of `createPrintLayoutDirect`: the canvas
descriptor and the composite entries. -/
structure DirectResult where
  canvas : DirectCanvas
  composites : List CompositeEntry
deriving DecidableEq, Repr

/-- The per-record loop of `createPrintLayoutDirect`: each placement
record reads its page and resizes it (cover fit); a page that fails to
decode aborts the whole build at that point; a successful record
contributes one composite entry at
`(col * PANEL_WIDTH, row * PANEL_HEIGHT)`. -/
def processArrangement (pages : List PageImage) :
    List PlacementRecord → List Effect × Except String (List CompositeEntry)
  | [] => ([], .ok [])
  | r :: rest =>
    if (pages.getD (r.page - 1) ⟨0, 0, false⟩).valid then
      let next := processArrangement pages rest
      (Effect.readPage r.page :: Effect.resizePage r.page :: next.1,
        next.2.map (fun cs =>
          (⟨r.page - 1, r.col * PANEL_WIDTH, r.row * PANEL_HEIGHT⟩ : CompositeEntry) :: cs))
    else
      ([Effect.readPage r.page],
        .error "Input buffer contains unsupported image format")

/-- `createPrintLayoutDirect` as a trace-producing function: the
page-count guard (whose message names the actual count) runs before
anything else with an empty trace; then the arrangement loop runs over
`pageArrangement`, and the composite-encode and the `savePrintLayout`
write of the output happen only after the loop fully succeeds. -/
def createPrintLayoutDirect (pages : List PageImage) :
    List Effect × Except String DirectResult :=
  if pages.length = 8 then
    let res := processArrangement pages pageArrangement
    match res.2 with
    | .ok comps =>
      (res.1 ++ [Effect.encodeWriteOutput],
        .ok { canvas :=
                { width := PRINT_WIDTH, height := PRINT_HEIGHT,
                  channels := 4, background := whiteColor },
              composites := comps })
    | .error e => (res.1, .error e)
  else ([], .error ("Expected 8 pages, got " ++ toString pages.length))

end ZineLib

namespace Index

/-- The options object accepted by `createZineConfig`; a JS field left
out by the caller is `none`. -/
structure ZineOptions where
  topic : Option String
  title : Option String
  style : Option String
  tone : Option String
  paperFormat : Option String
  sourceUrls : Option (List String)
deriving Repr

/-- A zine configuration object as built by `createZineConfig` or
inspected by `validateConfig`; `topic` and `pages` keep their possibly
absent JS representation. -/
structure ZineConfig where
  id : String
  topic : Option String
  title : String
  style : String
  tone : String
  paperFormat : String
  sourceUrls : List String
  createdAt : Nat
  pages : Option (List String)
  status : String
deriving Repr

/-- JS truthiness of a string value: the empty string is falsy. -/
def truthyS (s : String) : Bool := !s.isEmpty

/-- JS truthiness of a possibly-absent string: `undefined` and the empty
string are falsy. -/
def truthyStr : Option String → Bool
  | none => false
  | some s => truthyS s

/-- `validateConfig` of the index module: pushes one error message per
failing check and is valid when no error was pushed. A present `pages`
value is an array in this model, and a JS array — even an empty one — is
truthy, so a present `pages` of length ≠ 8 always pushes its error. -/
def validateConfig (config : ZineConfig) : Bool × List String :=
  let errors :=
    (if !truthyStr config.topic
      then ["Topic is required and must be a string"] else []) ++
    (if truthyS config.style &&
        !(["punk-zine", "minimal", "collage", "retro", "academic"].contains config.style)
      then ["Invalid style: " ++ config.style] else []) ++
    (if truthyS config.tone &&
        !(["rebellious", "playful", "informative", "poetic"].contains config.tone)
      then ["Invalid tone: " ++ config.tone] else []) ++
    (if truthyS config.paperFormat &&
        !(["letter", "a4"].contains config.paperFormat)
      then ["Invalid paper format: " ++ config.paperFormat] else []) ++
    (match config.pages with
      | some l => if l.length ≠ 8 then ["Pages must be an array of exactly 8 items"] else []
      | none => [])
  (errors.isEmpty, errors)

/-- A thrown JS exception of `createZineConfig`: the `TypeError` raised
by reading `toUpperCase` of an undefined topic, or an `Error` carrying a
message. -/
inductive JsError where
  | typeError
  | thrown (msg : String)
deriving DecidableEq, Repr

/-- The config object literal built inside `createZineConfig`:
destructured options with their defaults (the `title` default is
`topic.toUpperCase()`), a fresh id, and notably `pages: []`. `now` and
`rand` stand for the `Date.now()` and `Math.random()`-derived values
read while building the id. -/
def buildConfig (opts : ZineOptions) (now : Nat) (rand : String) : ZineConfig :=
  { id := "zine_" ++ toString now ++ "_" ++ rand,
    topic := opts.topic,
    title := opts.title.getD (opts.topic.getD "").toUpper,
    style := opts.style.getD "punk-zine",
    tone := opts.tone.getD "rebellious",
    paperFormat := opts.paperFormat.getD "letter",
    sourceUrls := opts.sourceUrls.getD [],
    createdAt := now,
    pages := some [],
    status := "draft" }

/-- The control flow of `createZineConfig`: the `TypeError` of the
destructuring when both `title` and `topic` are absent, else build the
candidate config, validate it, and throw when the validation fails. -/
def createZineConfig (opts : ZineOptions) (now : Nat) (rand : String) :
    Except JsError ZineConfig :=
  match opts.title, opts.topic with
  | none, none => .error .typeError
  | _, _ =>
    let config := buildConfig opts now rand
    let v := validateConfig config
    if v.1 then .ok config
    else .error (.thrown ("Invalid config: " ++ String.intercalate ", " v.2))

end Index

end MycroZine

namespace MycroZine

theorem containScale_nonneg (srcW srcH panelW panelH : ℚ)
    (hsw : 0 < srcW) (hsh : 0 < srcH) (hpw : 0 < panelW) (hph : 0 < panelH) :
    0 ≤ containScale srcW srcH panelW panelH :=
  le_of_lt (lt_min (div_pos hpw hsw) (div_pos hph hsh))

theorem containScale_mul_left_le (srcW srcH panelW panelH : ℚ) (hsw : 0 < srcW) :
    containScale srcW srcH panelW panelH * srcW ≤ panelW := by
  have h1 : containScale srcW srcH panelW panelH ≤ panelW / srcW := min_le_left _ _
  calc containScale srcW srcH panelW panelH * srcW
      ≤ panelW / srcW * srcW := mul_le_mul_of_nonneg_right h1 hsw.le
    _ = panelW := div_mul_cancel₀ _ (ne_of_gt hsw)

theorem containScale_mul_right_le (srcW srcH panelW panelH : ℚ) (hsh : 0 < srcH) :
    containScale srcW srcH panelW panelH * srcH ≤ panelH := by
  have h1 : containScale srcW srcH panelW panelH ≤ panelH / srcH := min_le_right _ _
  calc containScale srcW srcH panelW panelH * srcH
      ≤ panelH / srcH * srcH := mul_le_mul_of_nonneg_right h1 hsh.le
    _ = panelH := div_mul_cancel₀ _ (ne_of_gt hsh)

theorem le_containScale (srcW srcH panelW panelH t : ℚ)
    (hsw : 0 < srcW) (hsh : 0 < srcH)
    (h1 : t * srcW ≤ panelW) (h2 : t * srcH ≤ panelH) :
    t ≤ containScale srcW srcH panelW panelH :=
  le_min ((le_div_iff₀ hsw).2 h1) ((le_div_iff₀ hsh).2 h2)

theorem coverScale_mul_left_ge (srcW srcH panelW panelH : ℚ) (hsw : 0 < srcW) :
    panelW ≤ coverScale srcW srcH panelW panelH * srcW := by
  have h1 : panelW / srcW ≤ coverScale srcW srcH panelW panelH := le_max_left _ _
  calc panelW = panelW / srcW * srcW := (div_mul_cancel₀ _ (ne_of_gt hsw)).symm
    _ ≤ coverScale srcW srcH panelW panelH * srcW :=
        mul_le_mul_of_nonneg_right h1 hsw.le

theorem coverScale_mul_right_ge (srcW srcH panelW panelH : ℚ) (hsh : 0 < srcH) :
    panelH ≤ coverScale srcW srcH panelW panelH * srcH := by
  have h1 : panelH / srcH ≤ coverScale srcW srcH panelW panelH := le_max_right _ _
  calc panelH = panelH / srcH * srcH := (div_mul_cancel₀ _ (ne_of_gt hsh)).symm
    _ ≤ coverScale srcW srcH panelW panelH * srcH :=
        mul_le_mul_of_nonneg_right h1 hsh.le

/-- C1: the fold-cut placement plan places pages 1, 8, 7, 6 in row 0 at
columns 0–3, each rotated 180°, and pages 2, 3, 4, 5 in row 1 at
columns 0–3, each unrotated. -/
theorem foldCut_placement_rows :
    ZineLib.recordFor 1 = some ⟨1, 0, 0, 180⟩ ∧
    ZineLib.recordFor 8 = some ⟨8, 1, 0, 180⟩ ∧
    ZineLib.recordFor 7 = some ⟨7, 2, 0, 180⟩ ∧
    ZineLib.recordFor 6 = some ⟨6, 3, 0, 180⟩ ∧
    ZineLib.recordFor 2 = some ⟨2, 0, 1, 0⟩ ∧
    ZineLib.recordFor 3 = some ⟨3, 1, 1, 0⟩ ∧
    ZineLib.recordFor 4 = some ⟨4, 2, 1, 0⟩ ∧
    ZineLib.recordFor 5 = some ⟨5, 3, 1, 0⟩ := by
  decide

/-- C3: the fold-cut placement plan is a bijection — it has exactly 8
records, its (column, row) pairs are a permutation of the full 4×2 grid,
and its logical page numbers are a permutation of 1..8. -/
theorem foldCut_placement_bijection :
    ZineLib.pageArrangement.length = 8 ∧
    (ZineLib.pageArrangement.map (fun r => (r.col, r.row))).Perm ZineLib.grid4x2 ∧
    (ZineLib.pageArrangement.map (fun r => r.page)).Perm [1, 2, 3, 4, 5, 6, 7, 8] := by
  refine ⟨rfl, ?_, ?_⟩ <;> decide

/-- C4: in the reading-order grid, logical page n (1..8) is painted at
column (n-1) % 2 and row (n-1) / 2, at pixel offset
(column * PANEL_WIDTH, row * PANEL_HEIGHT) on the 2550×3300 letter
canvas (the pipeline applies no rotation), so page 1 occupies the
top-left 1275×825 block and page 8 the bottom-right block. -/
theorem readingGrid_placement (n : Nat) (hle : n ≤ 8) (hge : 1 ≤ n) :
    Layout.entryFor (n - 1) =
      some ⟨n - 1, ((n - 1) % Layout.COLS) * Layout.PANEL_WIDTH,
        ((n - 1) / Layout.COLS) * Layout.PANEL_HEIGHT⟩ ∧
    Layout.PAGE_WIDTH = 2550 ∧ Layout.PAGE_HEIGHT = 3300 ∧
    Layout.PANEL_WIDTH = 1275 ∧ Layout.PANEL_HEIGHT = 825 ∧
    Layout.entryFor 0 = some ⟨0, 0, 0⟩ ∧
    Layout.entryFor 7 = some ⟨7, 1275, 2475⟩ ∧
    1275 + 1275 = Layout.PAGE_WIDTH ∧ 2475 + 825 = Layout.PAGE_HEIGHT := by
  interval_cases n <;> decide

/-- C5: for every paper format and both schemes, the panel dimensions are
the floor divisions of the canvas dimensions by the grid shape, and hence
the panels never overflow the canvas. -/
theorem panels_fit_canvas (fmt : PaperFormat) (s : Scheme) :
    (resolveGeometry fmt s).panelWidthPx =
      (resolveGeometry fmt s).canvasWidthPx / (resolveGeometry fmt s).columns ∧
    (resolveGeometry fmt s).panelHeightPx =
      (resolveGeometry fmt s).canvasHeightPx / (resolveGeometry fmt s).rows ∧
    (resolveGeometry fmt s).panelWidthPx * (resolveGeometry fmt s).columns ≤
      (resolveGeometry fmt s).canvasWidthPx ∧
    (resolveGeometry fmt s).panelHeightPx * (resolveGeometry fmt s).rows ≤
      (resolveGeometry fmt s).canvasHeightPx := by
  cases fmt <;> cases s <;> decide

/-- Witness for C4 at n = 8. -/
theorem readingGrid_placement_witness :
    (8 : Nat) ≤ 8 ∧ 1 ≤ (8 : Nat) ∧
    Layout.entryFor 7 =
      some ⟨7, (7 % Layout.COLS) * Layout.PANEL_WIDTH,
        (7 / Layout.COLS) * Layout.PANEL_HEIGHT⟩ :=
  ⟨le_refl 8, by decide, (readingGrid_placement 8 (le_refl 8) (by decide)).1⟩

/-- C2 counterexample: the fold-cut path resizes with a cover fit, and on
a 1650×1275 source its scaled content is 1650 px wide inside an 825 px
panel — the sides are cropped away, so the full source image is not
contained in the output. -/
theorem foldCut_resize_crops :
    (ZineLib.resizePanel 1650 1275).outW < (ZineLib.resizePanel 1650 1275).contentW ∧
    (ZineLib.resizePanel 1650 1275).offX < 0 := by
  constructor <;>
    norm_num [ZineLib.resizePanel, coverFit, coverScale,
      ZineLib.PANEL_WIDTH, ZineLib.PANEL_HEIGHT]

/-- C2 amended: the contain-fit guarantee holds for the reading-grid
path's resize — exact panel dimensions, content within the panel, centred,
and the scale maximal among aspect-preserving fits — while the fold-cut
path's cover fit scales the content to at least the panel on both axes,
cropping whenever an axis strictly overflows. -/
theorem normalizer_contain_no_crop (srcW srcH panelW panelH : ℚ)
    (hsw : 0 < srcW) (hsh : 0 < srcH) (hpw : 0 < panelW) (hph : 0 < panelH) :
    (containFit srcW srcH panelW panelH).outW = panelW ∧
    (containFit srcW srcH panelW panelH).outH = panelH ∧
    (containFit srcW srcH panelW panelH).contentW ≤ panelW ∧
    (containFit srcW srcH panelW panelH).contentH ≤ panelH ∧
    0 ≤ (containFit srcW srcH panelW panelH).offX ∧
    0 ≤ (containFit srcW srcH panelW panelH).offY ∧
    2 * (containFit srcW srcH panelW panelH).offX +
      (containFit srcW srcH panelW panelH).contentW = panelW ∧
    2 * (containFit srcW srcH panelW panelH).offY +
      (containFit srcW srcH panelW panelH).contentH = panelH ∧
    (∀ t : ℚ, t * srcW ≤ panelW → t * srcH ≤ panelH →
      t * srcW ≤ (containFit srcW srcH panelW panelH).contentW ∧
      t * srcH ≤ (containFit srcW srcH panelW panelH).contentH) ∧
    panelW ≤ (coverFit srcW srcH panelW panelH).contentW ∧
    panelH ≤ (coverFit srcW srcH panelW panelH).contentH := by
  have hW := containScale_mul_left_le srcW srcH panelW panelH hsw
  have hH := containScale_mul_right_le srcW srcH panelW panelH hsh
  refine ⟨rfl, rfl, hW, hH, ?_, ?_, ?_, ?_, ?_, ?_, ?_⟩
  · exact div_nonneg (sub_nonneg.2 hW) (by norm_num)
  · exact div_nonneg (sub_nonneg.2 hH) (by norm_num)
  · show 2 * ((panelW - containScale srcW srcH panelW panelH * srcW) / 2) +
      containScale srcW srcH panelW panelH * srcW = panelW
    ring
  · show 2 * ((panelH - containScale srcW srcH panelW panelH * srcH) / 2) +
      containScale srcW srcH panelW panelH * srcH = panelH
    ring
  · intro t h1 h2
    have ht := le_containScale srcW srcH panelW panelH t hsw hsh h1 h2
    exact ⟨mul_le_mul_of_nonneg_right ht hsw.le,
      mul_le_mul_of_nonneg_right ht hsh.le⟩
  · exact coverScale_mul_left_ge srcW srcH panelW panelH hsw
  · exact coverScale_mul_right_ge srcW srcH panelW panelH hsh

/-- Witness for the amended C2 at a 600×900 source and the reading-grid
1275×825 panel. -/
theorem normalizer_contain_no_crop_witness :
    (0 : ℚ) < 600 ∧ (0 : ℚ) < 900 ∧ (0 : ℚ) < 1275 ∧ (0 : ℚ) < 825 ∧
    (containFit 600 900 1275 825).contentW ≤ 1275 :=
  ⟨by norm_num, by norm_num, by norm_num, by norm_num,
    (normalizer_contain_no_crop 600 900 1275 825 (by norm_num) (by norm_num)
      (by norm_num) (by norm_num)).2.2.1⟩

/-- C8: the Page Normalizer is deterministic — its output geometry is a
contain fit of the input, and any two outputs that are contain fits of
the same source and panel are equal, so running the normalization twice
on the same input yields identical output rasters. -/
theorem normalizer_deterministic (srcW srcH panelW panelH : ℚ)
    (hsw : 0 < srcW) (hsh : 0 < srcH) (hpw : 0 < panelW) (hph : 0 < panelH) :
    IsContainFitOf srcW srcH panelW panelH (containFit srcW srcH panelW panelH) ∧
    ∀ f g : FitResult, IsContainFitOf srcW srcH panelW panelH f →
      IsContainFitOf srcW srcH panelW panelH g → f = g := by
  constructor
  · refine ⟨rfl, rfl, containScale srcW srcH panelW panelH,
      containScale_nonneg srcW srcH panelW panelH hsw hsh hpw hph,
      rfl, rfl,
      containScale_mul_left_le srcW srcH panelW panelH hsw,
      containScale_mul_right_le srcW srcH panelW panelH hsh,
      ?_, rfl, rfl⟩
    intro t _ h1 h2
    exact le_containScale srcW srcH panelW panelH t hsw hsh h1 h2
  · rintro f g ⟨hfW, hfH, s, hs0, hfcW, hfcH, hsW, hsH, hsmax, hfX, hfY⟩
      ⟨hgW, hgH, s', hs0', hgcW, hgcH, hsW', hsH', hsmax', hgX, hgY⟩
    have hss : s = s' :=
      le_antisymm (hsmax' s hs0 hsW hsH) (hsmax s' hs0' hsW' hsH')
    ext
    · rw [hfW, hgW]
    · rw [hfH, hgH]
    · rw [hfcW, hgcW, hss]
    · rw [hfcH, hgcH, hss]
    · rw [hfX, hgX, hfcW, hgcW, hss]
    · rw [hfY, hgY, hfcH, hgcH, hss]

/-- Witness for C8 at a 600×900 source and the reading-grid 1275×825
panel. -/
theorem normalizer_deterministic_witness :
    (0 : ℚ) < 600 ∧ (0 : ℚ) < 900 ∧ (0 : ℚ) < 1275 ∧ (0 : ℚ) < 825 ∧
    IsContainFitOf 600 900 1275 825 (containFit 600 900 1275 825) :=
  ⟨by norm_num, by norm_num, by norm_num, by norm_num,
    (normalizer_deterministic 600 900 1275 825 (by norm_num) (by norm_num)
      (by norm_num) (by norm_num)).1⟩

theorem isEmptyFalseOfMem {α : Type} {a : α} {l : List α} (h : a ∈ l) :
    l.isEmpty = false := by
  cases l with
  | nil => cases h
  | cons b t => rfl

theorem getLastAppendSingleton {α : Type} (l : List α) (a : α) :
    (l ++ [a]).getLast? = some a :=
  List.getLast?_concat l

theorem exceptMapIsOk {ε α β : Type} (f : α → β) (x : Except ε α) :
    isOkE (x.map f) = isOkE x := by
  cases x <;> rfl

theorem processArrangement_no_encode (pages : List PageImage)
    (l : List PlacementRecord) :
    Effect.encodeWriteOutput ∉ (ZineLib.processArrangement pages l).1 := by
  induction l with
  | nil => simp [ZineLib.processArrangement]
  | cons r rest ih =>
    rw [ZineLib.processArrangement]
    by_cases h : (pages.getD (r.page - 1) ⟨0, 0, false⟩).valid
    · rw [if_pos h]
      intro hmem
      rcases List.mem_cons.1 hmem with hc | hmem'
      · exact Effect.noConfusion hc
      · rcases List.mem_cons.1 hmem' with hc | hmem''
        · exact Effect.noConfusion hc
        · exact ih hmem''
    · rw [if_neg h]
      intro hmem
      rcases List.mem_cons.1 hmem with hc | hc
      · exact Effect.noConfusion hc
      · cases hc

theorem processArrangement_ok_valid (pages : List PageImage)
    (l : List PlacementRecord)
    (hok : isOkE ((ZineLib.processArrangement pages l).2) = true) :
    ∀ r ∈ l, (pages.getD (r.page - 1) ⟨0, 0, false⟩).valid = true := by
  induction l with
  | nil => intro r hr; cases hr
  | cons q rest ih =>
    rw [ZineLib.processArrangement] at hok
    by_cases h : (pages.getD (q.page - 1) ⟨0, 0, false⟩).valid
    · rw [if_pos h] at hok
      have hok' : isOkE ((ZineLib.processArrangement pages rest).2) = true := by
        rw [← exceptMapIsOk (fun cs =>
          (⟨q.page - 1, q.col * ZineLib.PANEL_WIDTH, q.row * ZineLib.PANEL_HEIGHT⟩ :
            CompositeEntry) :: cs) ((ZineLib.processArrangement pages rest).2)]
        exact hok
      intro r hr
      rcases List.mem_cons.1 hr with rfl | hr'
      · exact h
      · exact ih hok' r hr'
    · rw [if_neg h] at hok
      exact Bool.noConfusion hok

theorem validateConfig_pages_error (config : Index.ZineConfig)
    (l : List String) (hp : config.pages = some l) (hlen : l.length ≠ 8) :
    (Index.validateConfig config).1 = false := by
  have hmem : "Pages must be an array of exactly 8 items" ∈
      (Index.validateConfig config).2 := by
    simp [Index.validateConfig, hp, hlen]
  exact isEmptyFalseOfMem hmem

/-- C6 counterexample: `createPrintLayout` rejects seven pages with the
fixed message "Exactly 8 page images are required" and an empty effect
trace, and produces the very same message for five pages — the
reading-grid path's page-count error does not name the actual count. -/
theorem pageCountMessage_fixed :
    Layout.createPrintLayout (some (List.replicate 7 ⟨600, 900, true⟩)) "#ffffff" =
      ([], .error "Exactly 8 page images are required") ∧
    Layout.createPrintLayout (some (List.replicate 5 ⟨600, 900, true⟩)) "#ffffff" =
      ([], .error "Exactly 8 page images are required") := by
  constructor <;> rfl

/-- C6 amended: building with a page count other than 8 fails before any
other work, with an empty effect trace (so no file is written); the
fold-cut path's error names the actual count, while the reading-grid
path throws the fixed message "Exactly 8 page images are required" —
which does not include the count — also when `pages` is absent. -/
theorem pageCount_guard_first (pages : List PageImage) (background : String)
    (hlen : pages.length ≠ 8) :
    Layout.createPrintLayout (some pages) background =
      ([], .error "Exactly 8 page images are required") ∧
    Layout.createPrintLayout none background =
      ([], .error "Exactly 8 page images are required") ∧
    ZineLib.createPrintLayoutDirect pages =
      ([], .error ("Expected 8 pages, got " ++ toString pages.length)) := by
  refine ⟨?_, rfl, ?_⟩
  · simp [Layout.createPrintLayout, hlen]
  · simp [ZineLib.createPrintLayoutDirect, hlen]

/-- Witness for the amended C6 with three pages. -/
theorem pageCount_guard_first_witness :
    (List.replicate 3 (⟨600, 900, true⟩ : PageImage)).length ≠ 8 ∧
    ZineLib.createPrintLayoutDirect (List.replicate 3 ⟨600, 900, true⟩) =
      ([], .error "Expected 8 pages, got 3") :=
  ⟨by decide,
    (pageCount_guard_first (List.replicate 3 ⟨600, 900, true⟩) "#ffffff"
      (by decide)).2.2⟩

/-- C7: in both build paths the encode-and-write of the output raster
happens exactly when the build succeeds, it is then the last effect of
the trace, and success requires the page-count check and every page
normalization to have succeeded — so a failed upstream stage never
produces an output write. -/
theorem encode_write_is_last :
    (∀ pagesOpt background,
      (Effect.encodeWriteOutput ∈ (Layout.createPrintLayout pagesOpt background).1 ↔
        isOkE ((Layout.createPrintLayout pagesOpt background).2) = true) ∧
      (isOkE ((Layout.createPrintLayout pagesOpt background).2) = true →
        (Layout.createPrintLayout pagesOpt background).1.getLast? =
          some Effect.encodeWriteOutput ∧
        ∃ pages, pagesOpt = some pages ∧ pages.length = 8 ∧
          pages.all (fun p => p.valid) = true)) ∧
    (∀ pages,
      (Effect.encodeWriteOutput ∈ (ZineLib.createPrintLayoutDirect pages).1 ↔
        isOkE ((ZineLib.createPrintLayoutDirect pages).2) = true) ∧
      (isOkE ((ZineLib.createPrintLayoutDirect pages).2) = true →
        (ZineLib.createPrintLayoutDirect pages).1.getLast? =
          some Effect.encodeWriteOutput ∧
        pages.length = 8 ∧
        ∀ i, i < 8 → (pages.getD i ⟨0, 0, false⟩).valid = true)) := by
  constructor
  · intro pagesOpt background
    cases pagesOpt with
    | none => simp [Layout.createPrintLayout, isOkE]
    | some pages =>
      by_cases hlen : pages.length = 8
      · by_cases hval : pages.all (fun p => p.valid) = true
        · have htr : (Layout.createPrintLayout (some pages) background).1 =
              (Effect.mkdirOutputDir ::
                (List.range 8).map (fun i => Effect.resizePage (i + 1))) ++
                [Effect.encodeWriteOutput] := by
            simp [Layout.createPrintLayout, hlen, hval]
          have hok : isOkE ((Layout.createPrintLayout (some pages) background).2) = true := by
            simp [Layout.createPrintLayout, hlen, hval, isOkE]
          refine ⟨⟨fun _ => hok, fun _ => ?_⟩, fun _ => ⟨?_, pages, rfl, hlen, hval⟩⟩
          · rw [htr]; decide
          · rw [htr]; exact getLastAppendSingleton _ _
        · have htr : (Layout.createPrintLayout (some pages) background).1 =
              Effect.mkdirOutputDir ::
                (List.range 8).map (fun i => Effect.resizePage (i + 1)) := by
            simp [Layout.createPrintLayout, hlen, hval]
          have hok : isOkE ((Layout.createPrintLayout (some pages) background).2) = false := by
            simp [Layout.createPrintLayout, hlen, hval, isOkE]
          rw [htr, hok]
          refine ⟨⟨fun hmem => absurd hmem (by decide), fun hff => Bool.noConfusion hff⟩,
            fun hff => Bool.noConfusion hff⟩
      · have h0 : Layout.createPrintLayout (some pages) background =
            ([], .error "Exactly 8 page images are required") := by
          simp [Layout.createPrintLayout, hlen]
        rw [h0]
        exact ⟨⟨fun hmem => absurd hmem (by decide), fun hff => Bool.noConfusion hff⟩,
          fun hff => Bool.noConfusion hff⟩
  · intro pages
    by_cases hlen : pages.length = 8
    · cases hres : ((ZineLib.processArrangement pages ZineLib.pageArrangement).2) with
      | ok comps =>
        have htr : (ZineLib.createPrintLayoutDirect pages).1 =
            (ZineLib.processArrangement pages ZineLib.pageArrangement).1 ++
              [Effect.encodeWriteOutput] := by
          simp [ZineLib.createPrintLayoutDirect, hlen, hres]
        have hok : isOkE ((ZineLib.createPrintLayoutDirect pages).2) = true := by
          simp [ZineLib.createPrintLayoutDirect, hlen, hres, isOkE]
        have hva := processArrangement_ok_valid pages ZineLib.pageArrangement
          (by rw [hres]; rfl)
        have hcov : ∀ i, i < 8 →
            i ∈ ZineLib.pageArrangement.map (fun r => r.page - 1) := by decide
        refine ⟨⟨fun _ => hok, fun _ => ?_⟩, fun _ => ⟨?_, hlen, ?_⟩⟩
        · rw [htr]
          exact List.mem_append_right _ (List.mem_singleton.2 rfl)
        · rw [htr]; exact getLastAppendSingleton _ _
        · intro i hi
          rcases List.mem_map.1 (hcov i hi) with ⟨r, hrmem, hre⟩
          rw [← hre]
          exact hva r hrmem
      | error e =>
        have htr : (ZineLib.createPrintLayoutDirect pages).1 =
            (ZineLib.processArrangement pages ZineLib.pageArrangement).1 := by
          simp [ZineLib.createPrintLayoutDirect, hlen, hres]
        have hok : isOkE ((ZineLib.createPrintLayoutDirect pages).2) = false := by
          simp [ZineLib.createPrintLayoutDirect, hlen, hres, isOkE]
        rw [htr, hok]
        refine ⟨⟨fun hmem => absurd hmem (processArrangement_no_encode pages _),
          fun hff => Bool.noConfusion hff⟩, fun hff => Bool.noConfusion hff⟩
    · have h0 : ZineLib.createPrintLayoutDirect pages =
          ([], .error ("Expected 8 pages, got " ++ toString pages.length)) := by
        simp [ZineLib.createPrintLayoutDirect, hlen]
      rw [h0]
      exact ⟨⟨fun hmem => absurd hmem (List.not_mem_nil _), fun hff => Bool.noConfusion hff⟩,
        fun hff => Bool.noConfusion hff⟩

/-- Witness for C7 instantiating the reading-grid part at eight valid
pages. -/
theorem encode_write_is_last_witness :
    Effect.encodeWriteOutput ∈
      (Layout.createPrintLayout (some (List.replicate 8 ⟨600, 900, true⟩)) "#ffffff").1 ↔
    isOkE ((Layout.createPrintLayout (some (List.replicate 8 ⟨600, 900, true⟩)) "#ffffff").2)
      = true :=
  (encode_write_is_last.1 (some (List.replicate 8 ⟨600, 900, true⟩)) "#ffffff").1

/-- C9: `validateConfig` reports any present pages value of length ≠ 8
as invalid (a JS array, even empty, is truthy), and `createZineConfig`
builds its candidate config with `pages = []`, so it throws on every
input — no configuration object is ever returned. -/
theorem createZineConfig_always_throws :
    (∀ (config : Index.ZineConfig) (l : List String),
      config.pages = some l → l.length ≠ 8 →
      (Index.validateConfig config).1 = false) ∧
    (∀ (opts : Index.ZineOptions) (now : Nat) (rand : String),
      ∃ e, Index.createZineConfig opts now rand = .error e) := by
  refine ⟨validateConfig_pages_error, ?_⟩
  intro opts now rand
  have hv : (Index.validateConfig (Index.buildConfig opts now rand)).1 = false :=
    validateConfig_pages_error _ [] rfl (by decide)
  rcases h1 : opts.title with _ | t
  · rcases h2 : opts.topic with _ | tp
    · exact ⟨.typeError, by simp [Index.createZineConfig, h1, h2]⟩
    · refine ⟨.thrown ("Invalid config: " ++ String.intercalate ", "
        (Index.validateConfig (Index.buildConfig opts now rand)).2), ?_⟩
      simp [Index.createZineConfig, h1, h2, hv]
  · refine ⟨.thrown ("Invalid config: " ++ String.intercalate ", "
      (Index.validateConfig (Index.buildConfig opts now rand)).2), ?_⟩
    rcases h2 : opts.topic with _ | tp <;>
      simp [Index.createZineConfig, h1, h2, hv]

/-- Witness for C9: a well-formed options object with a topic still
yields a throw, and a config with empty present pages is invalid. -/
theorem createZineConfig_always_throws_witness :
    (({ id := "z", topic := some "mycelium", title := "M", style := "punk-zine",
        tone := "rebellious", paperFormat := "letter", sourceUrls := [],
        createdAt := 0, pages := some [], status := "draft" } :
          Index.ZineConfig).pages = some []) ∧
    ([] : List String).length ≠ 8 ∧
    (Index.validateConfig
      { id := "z", topic := some "mycelium", title := "M", style := "punk-zine",
        tone := "rebellious", paperFormat := "letter", sourceUrls := [],
        createdAt := 0, pages := some [], status := "draft" }).1 = false ∧
    ∃ e, Index.createZineConfig
      ⟨some "mycelium", none, none, none, none, none⟩ 1 "abc" = .error e :=
  ⟨rfl, by decide,
    createZineConfig_always_throws.1 _ [] rfl (by decide),
    createZineConfig_always_throws.2 ⟨some "mycelium", none, none, none, none, none⟩ 1 "abc"⟩

/-- C10: the fold-cut path composites onto an opaque white canvas for
every input — it takes no background option — while the reading-grid
path threads the caller's background through both the per-page resizes
and the canvas creation. -/
theorem foldCut_background_always_white :
    (∀ pages r, (ZineLib.createPrintLayoutDirect pages).2 = .ok r →
      r.canvas.background = ZineLib.whiteColor) ∧
    (∀ pagesOpt background r,
      (Layout.createPrintLayout pagesOpt background).2 = .ok r →
      r.canvas.background = background ∧ r.resizeBackground = background) := by
  constructor
  · intro pages r hr
    by_cases hlen : pages.length = 8
    · cases hres : ((ZineLib.processArrangement pages ZineLib.pageArrangement).2) with
      | ok comps =>
        have hok2 : (ZineLib.createPrintLayoutDirect pages).2 =
            .ok ⟨⟨ZineLib.PRINT_WIDTH, ZineLib.PRINT_HEIGHT, 4, ZineLib.whiteColor⟩,
              comps⟩ := by
          simp [ZineLib.createPrintLayoutDirect, hlen, hres]
        rw [hok2] at hr
        cases hr
        rfl
      | error e =>
        rw [show (ZineLib.createPrintLayoutDirect pages).2 = .error e by
          simp [ZineLib.createPrintLayoutDirect, hlen, hres]] at hr
        cases hr
    · rw [show (ZineLib.createPrintLayoutDirect pages).2 =
          .error ("Expected 8 pages, got " ++ toString pages.length) by
        simp [ZineLib.createPrintLayoutDirect, hlen]] at hr
      cases hr
  · intro pagesOpt background r hr
    cases pagesOpt with
    | none => cases hr
    | some pages =>
      by_cases hlen : pages.length = 8
      · by_cases hval : pages.all (fun p => p.valid) = true
        · have hok2 : (Layout.createPrintLayout (some pages) background).2 =
              .ok ⟨⟨Layout.PAGE_WIDTH, Layout.PAGE_HEIGHT, 3, background⟩,
                background, Layout.compositeImages⟩ := by
            simp [Layout.createPrintLayout, hlen, hval]
          rw [hok2] at hr
          cases hr
          exact ⟨rfl, rfl⟩
        · rw [show (Layout.createPrintLayout (some pages) background).2 =
              .error "Input file contains unsupported image format" by
            simp [Layout.createPrintLayout, hlen, hval]] at hr
          cases hr
      · rw [show (Layout.createPrintLayout (some pages) background).2 =
            .error "Exactly 8 page images are required" by
          simp [Layout.createPrintLayout, hlen]] at hr
        cases hr

/-- Witness for C10 at eight valid pages: the fold-cut result's canvas
background is opaque white. -/
theorem foldCut_background_always_white_witness :
    ((ZineLib.createPrintLayoutDirect (List.replicate 8 ⟨600, 900, true⟩)).2 =
      .ok ⟨⟨3300, 2550, 4, ZineLib.whiteColor⟩,
        [⟨0, 0, 0⟩, ⟨7, 825, 0⟩, ⟨6, 1650, 0⟩, ⟨5, 2475, 0⟩,
         ⟨1, 0, 1275⟩, ⟨2, 825, 1275⟩, ⟨3, 1650, 1275⟩, ⟨4, 2475, 1275⟩]⟩) ∧
    ((⟨⟨3300, 2550, 4, ZineLib.whiteColor⟩,
        [⟨0, 0, 0⟩, ⟨7, 825, 0⟩, ⟨6, 1650, 0⟩, ⟨5, 2475, 0⟩,
         ⟨1, 0, 1275⟩, ⟨2, 825, 1275⟩, ⟨3, 1650, 1275⟩, ⟨4, 2475, 1275⟩]⟩ :
        ZineLib.DirectResult)).canvas.background = ZineLib.whiteColor :=
  ⟨rfl,
    foldCut_background_always_white.1 (List.replicate 8 ⟨600, 900, true⟩) _ rfl⟩

/-- Witness for C5 instantiating the fold-cut letter geometry. -/
theorem panels_fit_canvas_witness :
    (resolveGeometry PaperFormat.letter Scheme.foldCut).panelWidthPx *
      (resolveGeometry PaperFormat.letter Scheme.foldCut).columns ≤
      (resolveGeometry PaperFormat.letter Scheme.foldCut).canvasWidthPx :=
  (panels_fit_canvas PaperFormat.letter Scheme.foldCut).2.2.1

end MycroZine
